import Mathlib

/-!
Verification of the Technical Indicator & Interpretation Engine
(`src/stockapp.py`) against its natural-language specification.

The pandas/numpy numeric values flowing through the pipeline are modelled
by `PFloat`: a rational number, positive/negative infinity, or NaN.  The
arithmetic on `PFloat` follows IEEE-754 / numpy semantics for the special
values (division of a positive finite value by zero yields `inf`, `0/0`
yields `nan`, any operation on `nan` yields `nan`, comparisons with `nan`
are false); finite arithmetic is exact rational arithmetic (rounding is
immaterial to the claims checked here).  Signed zeros are collapsed.
-/

/-- A pandas/numpy float value: NaN, +inf, -inf, or a finite rational. -/
inductive PFloat where
  | nan : PFloat
  | inf : PFloat
  | ninf : PFloat
  | val : ℚ → PFloat
deriving DecidableEq

def PFloat.isNaN : PFloat → Bool
  | .nan => true
  | _ => false

def PFloat.neg : PFloat → PFloat
  | .nan => .nan
  | .inf => .ninf
  | .ninf => .inf
  | .val a => .val (-a)

def PFloat.add : PFloat → PFloat → PFloat
  | .nan, _ => .nan
  | _, .nan => .nan
  | .inf, .ninf => .nan
  | .ninf, .inf => .nan
  | .inf, _ => .inf
  | _, .inf => .inf
  | .ninf, _ => .ninf
  | _, .ninf => .ninf
  | .val a, .val b => .val (a + b)

def PFloat.sub (a b : PFloat) : PFloat := a.add b.neg

def PFloat.mul : PFloat → PFloat → PFloat
  | .nan, _ => .nan
  | _, .nan => .nan
  | .inf, .inf => .inf
  | .inf, .ninf => .ninf
  | .ninf, .inf => .ninf
  | .ninf, .ninf => .inf
  | .inf, .val b => if b = 0 then .nan else if 0 < b then .inf else .ninf
  | .val a, .inf => if a = 0 then .nan else if 0 < a then .inf else .ninf
  | .ninf, .val b => if b = 0 then .nan else if 0 < b then .ninf else .inf
  | .val a, .ninf => if a = 0 then .nan else if 0 < a then .ninf else .inf
  | .val a, .val b => .val (a * b)

def PFloat.div : PFloat → PFloat → PFloat
  | .nan, _ => .nan
  | _, .nan => .nan
  | .inf, .inf => .nan
  | .inf, .ninf => .nan
  | .ninf, .inf => .nan
  | .ninf, .ninf => .nan
  | .inf, .val b => if b < 0 then .ninf else .inf
  | .ninf, .val b => if b < 0 then .inf else .ninf
  | .val _, .inf => .val 0
  | .val _, .ninf => .val 0
  | .val a, .val b =>
      if b = 0 then (if a = 0 then .nan else if 0 < a then .inf else .ninf)
      else .val (a / b)

/-- IEEE strict less-than: any comparison involving NaN is false. -/
def PFloat.lt : PFloat → PFloat → Bool
  | .nan, _ => false
  | _, .nan => false
  | .ninf, .ninf => false
  | .ninf, _ => true
  | _, .ninf => false
  | .inf, _ => false
  | .val _, .inf => true
  | .val a, .val b => decide (a < b)

def PFloat.gt (a b : PFloat) : Bool := PFloat.lt b a

/-- One OHLCV bar, as one row of the `yfinance` history frame.  Prices and
volume are modelled as exact rationals. -/
structure Bar where
  Open : ℚ
  High : ℚ
  Low : ℚ
  Close : ℚ
  Volume : ℚ
deriving DecidableEq

def defaultBar : Bar := ⟨0, 0, 0, 0, 0⟩

/-- The pandas DataFrame handled by the app: the OHLCV rows plus the two
indicator columns that `calculate_indicators` may attach.  `none` means the
column is absent from the frame. -/
structure DataFrame where
  bars : List Bar
  sma20 : Option (List PFloat)
  rsi : Option (List PFloat)
deriving DecidableEq

/-- The frame's column labels, in pandas insertion order. -/
def DataFrame.columns (df : DataFrame) : List String :=
  ["Open", "High", "Low", "Close", "Volume"]
    ++ (if df.sma20.isSome then ["SMA_20"] else [])
    ++ (if df.rsi.isSome then ["RSI"] else [])

/-- The `Close` column: `df['Close']`. -/
def closes (bars : List Bar) : List ℚ := bars.map (fun b => b.Close)

/-- Summand of `df['Close'].rolling(window=20).mean()`: the sum of the window of
`w` entries ending at position `i` (defined for `w - 1 ≤ i < xs.length`). -/
def windowSum (xs : List ℚ) (i w : ℕ) : ℚ := ((xs.drop (i + 1 - w)).take w).sum

/-- Entry `i` of `df['Close'].rolling(window=20).mean()`: NaN until the
20-window is full, then the exact mean of the last 20 closes. -/
def smaAt (xs : List ℚ) (i : ℕ) : PFloat :=
  if i + 1 < 20 then PFloat.nan else PFloat.val (windowSum xs i 20 / 20)

/-- Value of `delta.where(delta > 0, 0)` at position `i`: pandas `diff()` puts NaN at
position 0, and `NaN > 0` is false, so `where` replaces it by 0. -/
def gainAt (xs : List ℚ) (i : ℕ) : ℚ :=
  if i = 0 then 0 else max (xs.getD i 0 - xs.getD (i - 1) 0) 0

/-- Value of `(-delta.where(delta < 0, 0))` at position `i`; the position-0 NaN
likewise becomes 0. -/
def lossAt (xs : List ℚ) (i : ℕ) : ℚ :=
  if i = 0 then 0 else max (xs.getD (i - 1) 0 - xs.getD i 0) 0

/-- The index window `[i-13, …, i]` of a 14-period rolling aggregate. -/
def windowIdx (i : ℕ) : List ℕ := (List.range 14).map (fun k => i - 13 + k)

/-- Trailing 14-period average gain at position `i` (the finite value;
`rolling(14).mean()` yields it once 14 samples exist, i.e. for `13 ≤ i`). -/
def avgGain (xs : List ℚ) (i : ℕ) : ℚ := (((windowIdx i).map (gainAt xs)).sum) / 14

/-- Trailing 14-period average loss at position `i`. -/
def avgLoss (xs : List ℚ) (i : ℕ) : ℚ := (((windowIdx i).map (lossAt xs)).sum) / 14

/-- Entry `i` of `gain.rolling(window=14).mean()` as a pandas value: NaN for
the first 13 positions, the finite average afterwards. -/
def avgGainF (xs : List ℚ) (i : ℕ) : PFloat :=
  if i < 13 then PFloat.nan else PFloat.val (avgGain xs i)

/-- Entry `i` of `loss.rolling(window=14).mean()` as a pandas value. -/
def avgLossF (xs : List ℚ) (i : ℕ) : PFloat :=
  if i < 13 then PFloat.nan else PFloat.val (avgLoss xs i)

/-- Entry `i` of `rs = gain / loss`: elementwise pandas division, so a zero
average loss produces `inf` (positive average gain) or `nan` (flat window). -/
def rsAt (xs : List ℚ) (i : ℕ) : PFloat :=
  PFloat.div (avgGainF xs i) (avgLossF xs i)

/-- Entry `i` of `df['RSI'] = 100 - (100 / (1 + rs))`. -/
def rsiAt (xs : List ℚ) (i : ℕ) : PFloat :=
  PFloat.sub (PFloat.val 100)
    (PFloat.div (PFloat.val 100) (PFloat.add (PFloat.val 1) (rsAt xs i)))

/-- The whole `SMA_20` column. -/
def smaColumn (bars : List Bar) : List PFloat :=
  (List.range bars.length).map (fun i => smaAt (closes bars) i)

/-- The whole `RSI` column. -/
def rsiColumn (bars : List Bar) : List PFloat :=
  (List.range bars.length).map (fun i => rsiAt (closes bars) i)

/-- The function `calculate_indicators(df)`: below 15 bars the frame is returned as-is;
otherwise the `SMA_20` and `RSI` columns are attached to the frame. -/
def calculate_indicators (df : DataFrame) : DataFrame :=
  if df.bars.length < 15 then df
  else { df with sma20 := some (smaColumn df.bars), rsi := some (rsiColumn df.bars) }

/-- Reading `df['SMA_20']` at position `i` (NaN when the column is absent or
the position out of range, matching how the app's NaN checks observe it). -/
def smaAtDf (df : DataFrame) (i : ℕ) : PFloat :=
  match df.sma20 with
  | none => PFloat.nan
  | some col => col.getD i PFloat.nan

/-- Reading `df['RSI']` at position `i`. -/
def rsiAtDf (df : DataFrame) (i : ℕ) : PFloat :=
  match df.rsi with
  | none => PFloat.nan
  | some col => col.getD i PFloat.nan

/-- Qualitative polarity of a narrative statement, exposed as data. -/
inductive Polarity where
  | bullish
  | bearish
  | overbought
  | oversold
  | neutral
  | above
  | below
deriving DecidableEq

/-- The performance sentence of `generate_interpretation`: the move from the
first to the last close, its percentage, and the Bullish/Bearish verdict. -/
structure TrendStatement where
  start_price : ℚ
  end_price : ℚ
  change_pct : PFloat
  polarity : Polarity
deriving DecidableEq

/-- The structured content of the interpretation text: the trend sentence
plus the optional RSI and SMA sentences (each omitted when its indicator is
absent or NaN at the last position). -/
structure Interpretation where
  trend : TrendStatement
  rsiStmt : Option (PFloat × Polarity)
  smaStmt : Option (PFloat × Polarity)
deriving DecidableEq

/-- The function `generate_interpretation(df, period)`: `none` models the early
"Not enough data to generate an interpretation." return. -/
def generate_interpretation (df : DataFrame) : Option Interpretation :=
  if df.bars.length < 2 then none
  else
    let cs := closes df.bars
    let start_price := cs.getD 0 0
    let end_price := cs.getD (df.bars.length - 1) 0
    let change_pct :=
      PFloat.mul
        (PFloat.div (PFloat.sub (PFloat.val end_price) (PFloat.val start_price))
          (PFloat.val start_price))
        (PFloat.val 100)
    let trend : TrendStatement :=
      ⟨start_price, end_price, change_pct,
        if PFloat.gt change_pct (PFloat.val 0) then Polarity.bullish else Polarity.bearish⟩
    let rsiStmt : Option (PFloat × Polarity) :=
      match df.rsi with
      | none => none
      | some col =>
        let r := col.getD (col.length - 1) PFloat.nan
        if r.isNaN then none
        else some (r,
          if PFloat.gt r (PFloat.val 70) then Polarity.overbought
          else if PFloat.lt r (PFloat.val 30) then Polarity.oversold
          else Polarity.neutral)
    let smaStmt : Option (PFloat × Polarity) :=
      match df.sma20 with
      | none => none
      | some col =>
        let m := col.getD (col.length - 1) PFloat.nan
        if m.isNaN then none
        else some (m,
          if PFloat.gt (PFloat.val end_price) m then Polarity.above else Polarity.below)
    some ⟨trend, rsiStmt, smaStmt⟩

/-- Metric `latest_price = df['Close'].iloc[-1]` from the metrics block. -/
def latest_price (df : DataFrame) : ℚ := (closes df.bars).getD (df.bars.length - 1) 0

/-- Metric `prev_close = df['Close'].iloc[-2] if len(df) > 1 else df['Open'].iloc[0]`. -/
def prev_close (df : DataFrame) : ℚ :=
  if 1 < df.bars.length then (closes df.bars).getD (df.bars.length - 2) 0
  else (df.bars.getD 0 defaultBar).Open

/-- Metric `daily_change = latest_price - prev_close`. -/
def daily_change (df : DataFrame) : ℚ := latest_price df - prev_close df

/-- Metric `daily_pct = (daily_change / prev_close) * 100`, as numpy float division:
it never raises, a zero `prev_close` yields an infinity or NaN. -/
def daily_pct (df : DataFrame) : PFloat :=
  PFloat.mul (PFloat.div (PFloat.val (daily_change df)) (PFloat.val (prev_close df)))
    (PFloat.val 100)

/-- The `yf_period` ternary chain of `get_data`: every label other than the
five listed ones, the unknown ones included, falls through to `"1d"`. -/
def yf_period (period : String) : String :=
  if period = "1 Week" then "5d"
  else if period = "1 Month" then "1mo"
  else if period = "3 Months" then "3mo"
  else if period = "6 Months" then "6mo"
  else if period = "1 Year" then "1y"
  else "1d"

/-- The `interval` selection of `get_data`. -/
def interval (period : String) : String := if period = "1 Day" then "1m" else "1d"

/-- The (lookback span, sampling resolution) pair `get_data` passes to the
provider for a lookback label. -/
def resolveTimeframe (period : String) : String × String :=
  (yf_period period, interval period)

/-- The six user-facing lookback labels of the app's tab bar. -/
def knownLabels : List String :=
  ["1 Day", "1 Week", "1 Month", "3 Months", "6 Months", "1 Year"]

/-- A bar whose four prices all equal `c`, with unit volume. -/
def constBar (c : ℚ) : Bar := ⟨c, c, c, c, 1⟩

/-- A raw frame (no indicator columns) of `n` bars with closes `1, …, n`. -/
def incDf (n : ℕ) : DataFrame :=
  ⟨(List.range n).map (fun k => constBar (Nat.cast k + 1)), none, none⟩

/-- A raw frame of `n` bars all priced `c`. -/
def flatDf (n : ℕ) (c : ℚ) : DataFrame := ⟨List.replicate n (constBar c), none, none⟩

/-- A single bar whose `Open` is 0: the degenerate input for the metrics
division. -/
def zeroOpenDf : DataFrame := ⟨[⟨0, 5, 0, 5, 1⟩], none, none⟩

/-! ### Helper lemmas -/

theorem closes_length (bars : List Bar) : (closes bars).length = bars.length :=
  List.length_map _ _

theorem getD_map_range {α : Type} (f : ℕ → α) (n i : ℕ) (hi : i < n) (d : α) :
    ((List.range n).map f).getD i d = f i := by
  rw [List.getD_eq_getElem?_getD, List.getElem?_map, List.getElem?_range hi]
  rfl

theorem calculate_indicators_of_ge (df : DataFrame) (h : ¬ df.bars.length < 15) :
    calculate_indicators df =
      { df with sma20 := some (smaColumn df.bars), rsi := some (rsiColumn df.bars) } := by
  simp [calculate_indicators, h]

theorem smaAtDf_calc (df : DataFrame) (h : ¬ df.bars.length < 15) (i : ℕ)
    (hi : i < df.bars.length) :
    smaAtDf (calculate_indicators df) i = smaAt (closes df.bars) i := by
  rw [calculate_indicators_of_ge df h]
  show (smaColumn df.bars).getD i PFloat.nan = _
  exact getD_map_range _ _ _ hi _

theorem rsiAtDf_calc (df : DataFrame) (h : ¬ df.bars.length < 15) (i : ℕ)
    (hi : i < df.bars.length) :
    rsiAtDf (calculate_indicators df) i = rsiAt (closes df.bars) i := by
  rw [calculate_indicators_of_ge df h]
  show (rsiColumn df.bars).getD i PFloat.nan = _
  exact getD_map_range _ _ _ hi _

theorem windowSum_const (xs : List ℚ) (c : ℚ) (hc : ∀ x ∈ xs, x = c) (i : ℕ)
    (h19 : 19 ≤ i) (hi : i < xs.length) : windowSum xs i 20 = 20 * c := by
  have hlen : ((xs.drop (i + 1 - 20)).take 20).length = 20 := by
    rw [List.length_take, List.length_drop]
    omega
  have hmem : ∀ x ∈ (xs.drop (i + 1 - 20)).take 20, x = c := fun x hx =>
    hc x (List.drop_subset _ _ (List.take_subset _ _ hx))
  have hrep : (xs.drop (i + 1 - 20)).take 20 = List.replicate 20 c :=
    List.eq_replicate_iff.mpr ⟨hlen, hmem⟩
  rw [windowSum, hrep, List.sum_replicate]
  simp [nsmul_eq_mul]

/-- A list of closes that strictly increases from each position to the next. -/
def strictlyInc (xs : List ℚ) : Prop :=
  ∀ j, j + 1 < xs.length → xs.getD j 0 < xs.getD (j + 1) 0

theorem mem_windowIdx {i j : ℕ} (hj : j ∈ windowIdx i) : ∃ k, k < 14 ∧ j = i - 13 + k := by
  rw [windowIdx, List.mem_map] at hj
  obtain ⟨k, hk, rfl⟩ := hj
  exact ⟨k, List.mem_range.mp hk, rfl⟩

theorem avgLoss_of_inc (xs : List ℚ) (hinc : strictlyInc xs) (i : ℕ)
    (h14 : 14 ≤ i) (hi : i < xs.length) : avgLoss xs i = 0 := by
  have hz : ∀ x ∈ (windowIdx i).map (lossAt xs), x = 0 := by
    intro x hx
    rw [List.mem_map] at hx
    obtain ⟨j, hj, rfl⟩ := hx
    obtain ⟨k, hk, rfl⟩ := mem_windowIdx hj
    rw [lossAt, if_neg (by omega)]
    have hlt : xs.getD (i - 13 + k - 1) 0 < xs.getD (i - 13 + k) 0 := by
      have h := hinc (i - 13 + k - 1) (by omega)
      have heq : i - 13 + k - 1 + 1 = i - 13 + k := by omega
      rwa [heq] at h
    exact max_eq_right (sub_nonpos.mpr hlt.le)
  rw [avgLoss, List.sum_eq_zero hz]
  norm_num

theorem avgGain_of_inc (xs : List ℚ) (hinc : strictlyInc xs) (i : ℕ)
    (h14 : 14 ≤ i) (hi : i < xs.length) : 0 < avgGain xs i := by
  rw [avgGain]
  apply div_pos _ (by norm_num)
  apply List.sum_pos
  · intro x hx
    rw [List.mem_map] at hx
    obtain ⟨j, hj, rfl⟩ := hx
    obtain ⟨k, hk, rfl⟩ := mem_windowIdx hj
    rw [gainAt, if_neg (by omega)]
    have hlt : xs.getD (i - 13 + k - 1) 0 < xs.getD (i - 13 + k) 0 := by
      have h := hinc (i - 13 + k - 1) (by omega)
      have heq : i - 13 + k - 1 + 1 = i - 13 + k := by omega
      rwa [heq] at h
    exact lt_max_iff.mpr (Or.inl (sub_pos.mpr hlt))
  · have hl : ((windowIdx i).map (gainAt xs)).length = 14 := by simp [windowIdx]
    intro hnil
    rw [hnil] at hl
    simp at hl

theorem getD_of_const {xs : List ℚ} {c : ℚ} (hc : ∀ x ∈ xs, x = c) {j : ℕ}
    (hj : j < xs.length) : xs.getD j 0 = c := by
  rw [List.getD_eq_getElem?_getD, List.getElem?_eq_getElem hj]
  exact hc _ (List.getElem_mem _)

theorem avgGain_of_const (xs : List ℚ) (c : ℚ) (hc : ∀ x ∈ xs, x = c) (i : ℕ)
    (h14 : 14 ≤ i) (hi : i < xs.length) : avgGain xs i = 0 := by
  have hz : ∀ x ∈ (windowIdx i).map (gainAt xs), x = 0 := by
    intro x hx
    rw [List.mem_map] at hx
    obtain ⟨j, hj, rfl⟩ := hx
    obtain ⟨k, hk, rfl⟩ := mem_windowIdx hj
    rw [gainAt, if_neg (by omega), getD_of_const hc (by omega),
      getD_of_const hc (by omega)]
    simp
  rw [avgGain, List.sum_eq_zero hz]
  norm_num

theorem avgLoss_of_const (xs : List ℚ) (c : ℚ) (hc : ∀ x ∈ xs, x = c) (i : ℕ)
    (h14 : 14 ≤ i) (hi : i < xs.length) : avgLoss xs i = 0 := by
  have hz : ∀ x ∈ (windowIdx i).map (lossAt xs), x = 0 := by
    intro x hx
    rw [List.mem_map] at hx
    obtain ⟨j, hj, rfl⟩ := hx
    obtain ⟨k, hk, rfl⟩ := mem_windowIdx hj
    rw [lossAt, if_neg (by omega), getD_of_const hc (by omega),
      getD_of_const hc (by omega)]
    simp
  rw [avgLoss, List.sum_eq_zero hz]
  norm_num

theorem closes_incDf (n : ℕ) :
    closes (incDf n).bars = (List.range n).map (fun k => (Nat.cast k + 1 : ℚ)) := by
  rw [closes, incDf, List.map_map]
  rfl

theorem closes_incDf_length (n : ℕ) : (closes (incDf n).bars).length = n := by
  rw [closes_incDf, List.length_map, List.length_range]

theorem incDf_bars_length (n : ℕ) : (incDf n).bars.length = n := by
  show ((List.range n).map (fun k => constBar (Nat.cast k + 1))).length = n
  rw [List.length_map, List.length_range]

theorem flatDf_bars_length (n : ℕ) (c : ℚ) : (flatDf n c).bars.length = n := by
  show (List.replicate n (constBar c)).length = n
  rw [List.length_replicate]

theorem strictlyInc_incDf (n : ℕ) : strictlyInc (closes (incDf n).bars) := by
  intro j hj
  rw [closes_incDf] at hj ⊢
  have hn : j + 1 < n := by simpa using hj
  rw [getD_map_range _ n j (by omega) 0, getD_map_range _ n (j + 1) hn 0]
  push_cast
  linarith

theorem rsiAt_of_zero_loss (xs : List ℚ) (i : ℕ) (h13 : 13 ≤ i)
    (hl : avgLoss xs i = 0) (hg : 0 < avgGain xs i) :
    rsiAt xs i = PFloat.val 100 := by
  rw [rsiAt, rsAt, avgGainF, avgLossF, if_neg (by omega), if_neg (by omega), hl]
  have hdiv : PFloat.div (PFloat.val (avgGain xs i)) (PFloat.val 0) = PFloat.inf := by
    simp [PFloat.div, hg.ne', hg]
  rw [hdiv]
  show PFloat.val (100 + -0) = PFloat.val 100
  norm_num

theorem rsiAt_of_flat (xs : List ℚ) (i : ℕ) (h13 : 13 ≤ i)
    (hg : avgGain xs i = 0) (hl : avgLoss xs i = 0) : rsiAt xs i = PFloat.nan := by
  rw [rsiAt, rsAt, avgGainF, avgLossF, if_neg (by omega), if_neg (by omega), hg, hl]
  rfl

/-! ### Claim theorems -/

/-- C1 counterexample: on the strictly increasing 15-bar Series the last
position has zero average loss and positive average gain, and the code's
intermediate `rs = gain / loss` there is the infinity produced by dividing a
positive value by zero — the resulting `100` flows from division-by-zero
float semantics, not from an explicit branch (the indicator code has none). -/
theorem c1_counterexample :
    avgLossF (closes (incDf 15).bars) 14 = PFloat.val 0 ∧
    0 < avgGain (closes (incDf 15).bars) 14 ∧
    rsAt (closes (incDf 15).bars) 14 = PFloat.inf ∧
    rsiAtDf (calculate_indicators (incDf 15)) 14 = PFloat.val 100 := by
  have hinc := strictlyInc_incDf 15
  have hlen : (closes (incDf 15).bars).length = 15 := closes_incDf_length 15
  have hb : (incDf 15).bars.length = 15 := incDf_bars_length 15
  have hl := avgLoss_of_inc _ hinc 14 (by omega) (by omega)
  have hg := avgGain_of_inc _ hinc 14 (by omega) (by omega)
  refine ⟨?_, hg, ?_, ?_⟩
  · rw [avgLossF, if_neg (by omega), hl]
  · rw [rsAt, avgGainF, avgLossF, if_neg (by omega), if_neg (by omega), hl]
    simp [PFloat.div, hg.ne', hg]
  · rw [rsiAtDf_calc (incDf 15) (by omega) 14 (by omega)]
    exact rsiAt_of_zero_loss _ 14 (by omega) hl hg

/-- C1 (amended): for every Series of at least 15 bars and every in-window
position where the trailing 14-period average loss is 0 and the average gain
is positive, the oscillator value is defined and equals exactly 100 — via the
float semantics `gain/0 = +inf`, `100 - 100/(1 + inf) = 100`, there being no
explicit branch — and in particular a strictly monotonically increasing
closes Series yields 100 at the last position. -/
theorem c1_rsi_allgain (df : DataFrame) (h15 : 15 ≤ df.bars.length) :
    (∀ i, 13 ≤ i → i < df.bars.length →
      avgLoss (closes df.bars) i = 0 → 0 < avgGain (closes df.bars) i →
      rsiAtDf (calculate_indicators df) i = PFloat.val 100) ∧
    (strictlyInc (closes df.bars) →
      rsiAtDf (calculate_indicators df) (df.bars.length - 1) = PFloat.val 100) := by
  have h : ¬ df.bars.length < 15 := by omega
  constructor
  · intro i h13 hi hl hg
    rw [rsiAtDf_calc df h i hi]
    exact rsiAt_of_zero_loss _ i h13 hl hg
  · intro hinc
    have hlen : (closes df.bars).length = df.bars.length := closes_length _
    have hi : df.bars.length - 1 < df.bars.length := by omega
    rw [rsiAtDf_calc df h _ hi]
    exact rsiAt_of_zero_loss _ _ (by omega)
      (avgLoss_of_inc _ hinc _ (by omega) (by omega))
      (avgGain_of_inc _ hinc _ (by omega) (by omega))

/-- C1 witness: both edge positions of the 15-bar Series with closes
`1, …, 15` read 100, once through the zero-loss hypothesis at position 14
and once through the strictly-increasing corollary. -/
theorem c1_rsi_allgain_witness :
    rsiAtDf (calculate_indicators (incDf 15)) 14 = PFloat.val 100 ∧
    rsiAtDf (calculate_indicators (incDf 15)) (15 - 1) = PFloat.val 100 := by
  have hinc := strictlyInc_incDf 15
  have hlen : (closes (incDf 15).bars).length = 15 := closes_incDf_length 15
  have hb : (incDf 15).bars.length = 15 := incDf_bars_length 15
  constructor
  · exact (c1_rsi_allgain (incDf 15) (by omega)).1 14 (by omega) (by omega)
      (avgLoss_of_inc _ hinc 14 (by omega) (by omega))
      (avgGain_of_inc _ hinc 14 (by omega) (by omega))
  · have h := (c1_rsi_allgain (incDf 15) (by omega)).2 hinc
    rwa [hb] at h

/-- C2 counterexample: on a flat 15-bar Series the last position has both
trailing averages equal to 0, and the oscillator value there is NaN
(`0/0` propagates), i.e. undefined — not the claimed 50, and there is no
explicit branch producing a neutral reading. -/
theorem c2_counterexample :
    avgGainF (closes (flatDf 15 1).bars) 14 = PFloat.val 0 ∧
    avgLossF (closes (flatDf 15 1).bars) 14 = PFloat.val 0 ∧
    rsiAtDf (calculate_indicators (flatDf 15 1)) 14 = PFloat.nan := by
  have hc : ∀ x ∈ closes (flatDf 15 1).bars, x = 1 := by decide
  have hlen : (closes (flatDf 15 1).bars).length = 15 := by
    rw [closes_length, flatDf_bars_length]
  have hb : (flatDf 15 1).bars.length = 15 := flatDf_bars_length 15 1
  have hg := avgGain_of_const _ 1 hc 14 (by omega) (by omega)
  have hl := avgLoss_of_const _ 1 hc 14 (by omega) (by omega)
  refine ⟨?_, ?_, ?_⟩
  · rw [avgGainF, if_neg (by omega), hg]
  · rw [avgLossF, if_neg (by omega), hl]
  · rw [rsiAtDf_calc (flatDf 15 1) (by omega) 14 (by omega)]
    exact rsiAt_of_flat _ 14 (by omega) hg hl

/-- C2 (amended): for every Series of at least 15 bars and every in-window
position where both the trailing 14-period average gain and average loss are
0, the oscillator value is NaN, i.e. undefined — `0/0` yields NaN which
propagates through the formula — rather than an explicit neutral 50. -/
theorem c2_rsi_flat (df : DataFrame) (h15 : 15 ≤ df.bars.length) (i : ℕ)
    (h13 : 13 ≤ i) (hi : i < df.bars.length)
    (hg : avgGain (closes df.bars) i = 0) (hl : avgLoss (closes df.bars) i = 0) :
    rsiAtDf (calculate_indicators df) i = PFloat.nan := by
  rw [rsiAtDf_calc df (by omega) i hi]
  exact rsiAt_of_flat _ i h13 hg hl

/-- C2 witness: the flat 15-bar Series priced at 2 has an undefined
oscillator at its last position. -/
theorem c2_rsi_flat_witness :
    rsiAtDf (calculate_indicators (flatDf 15 2)) 14 = PFloat.nan := by
  have hc : ∀ x ∈ closes (flatDf 15 2).bars, x = 2 := by decide
  have hlen : (closes (flatDf 15 2).bars).length = 15 := by
    rw [closes_length, flatDf_bars_length]
  have hb : (flatDf 15 2).bars.length = 15 := flatDf_bars_length 15 2
  exact c2_rsi_flat (flatDf 15 2) (by omega) 14 (by omega) (by omega)
    (avgGain_of_const _ 2 hc 14 (by omega) (by omega))
    (avgLoss_of_const _ 2 hc 14 (by omega) (by omega))

/-- C5: for a Series of fewer than 15 bars the engine computes no indicator
at any position: the frame is returned unmodified and the moving-average and
oscillator series read as undefined (NaN) everywhere. -/
theorem c5_below_threshold (df : DataFrame) (h : df.bars.length < 15) :
    calculate_indicators df = df ∧
    (df.sma20 = none → ∀ i, smaAtDf (calculate_indicators df) i = PFloat.nan) ∧
    (df.rsi = none → ∀ i, rsiAtDf (calculate_indicators df) i = PFloat.nan) := by
  have hc : calculate_indicators df = df := by simp [calculate_indicators, h]
  exact ⟨hc, fun hn i => by simp [hc, smaAtDf, hn], fun hn i => by simp [hc, rsiAtDf, hn]⟩

/-- C5 witness: a 5-bar flat frame passes through unchanged with both
indicator series undefined. -/
theorem c5_below_threshold_witness :
    calculate_indicators (flatDf 5 1) = flatDf 5 1 ∧
    smaAtDf (calculate_indicators (flatDf 5 1)) 0 = PFloat.nan ∧
    rsiAtDf (calculate_indicators (flatDf 5 1)) 4 = PFloat.nan :=
  ⟨(c5_below_threshold (flatDf 5 1) (by decide)).1,
   (c5_below_threshold (flatDf 5 1) (by decide)).2.1 rfl 0,
   (c5_below_threshold (flatDf 5 1) (by decide)).2.2 rfl 4⟩

/-- C6: on a Series of at least 20 bars, the moving average at position `i`
is the arithmetic mean of the 20 most recent closes ending at `i` once 20
closes exist, is undefined at every earlier position, and equals `c` at every
defined position of a constant-price Series. -/
theorem c6_sma (df : DataFrame) (h20 : 20 ≤ df.bars.length) (i : ℕ)
    (hi : i < df.bars.length) :
    (19 ≤ i → smaAtDf (calculate_indicators df) i =
      PFloat.val (((((closes df.bars).take (i + 1)).drop (i + 1 - 20)).sum) / 20)) ∧
    (i < 19 → smaAtDf (calculate_indicators df) i = PFloat.nan) ∧
    (∀ c : ℚ, (∀ x ∈ closes df.bars, x = c) → 19 ≤ i →
      smaAtDf (calculate_indicators df) i = PFloat.val c) := by
  have h15 : ¬ df.bars.length < 15 := by omega
  have hcalc := smaAtDf_calc df h15 i hi
  refine ⟨fun h19 => ?_, fun hlt => ?_, fun c hc h19 => ?_⟩
  · have hwin : ((closes df.bars).take (i + 1)).drop (i + 1 - 20) =
        ((closes df.bars).drop (i + 1 - 20)).take 20 := by
      rw [List.drop_take]
      congr 1
      omega
    rw [hcalc, smaAt, if_neg (by omega), hwin, windowSum]
  · rw [hcalc, smaAt, if_pos (by omega)]
  · have hxi : i < (closes df.bars).length := by rw [closes_length]; omega
    rw [hcalc, smaAt, if_neg (by omega),
      windowSum_const (closes df.bars) c hc i h19 hxi]
    norm_num

/-- C6 witness: on a 20-bar Series priced constantly at 3, the moving
average at the last position is exactly 3 and is undefined at position 18. -/
theorem c6_sma_witness :
    smaAtDf (calculate_indicators (flatDf 20 3)) 19 = PFloat.val 3 ∧
    smaAtDf (calculate_indicators (flatDf 20 3)) 18 = PFloat.nan :=
  ⟨(c6_sma (flatDf 20 3) (by decide) 19 (by decide)).2.2 3 (by decide) (by decide),
   (c6_sma (flatDf 20 3) (by decide) 18 (by decide)).2.1 (by decide)⟩

/-- C9 counterexample: the engine does not leave the frame's set of columns
unchanged — on a 15-bar frame it attaches `SMA_20` and `RSI` to the very
frame it was given instead of building separate parallel series. -/
theorem c9_counterexample :
    (calculate_indicators (flatDf 15 1)).columns ≠ (flatDf 15 1).columns := by decide

/-- C9 (amended): the engine never changes the bar data (`Open`, `High`,
`Low`, `Close`, `Volume` of every bar are preserved), but on a frame of at
least 15 bars it extends the frame's own column set with `SMA_20` and
`RSI` rather than leaving it unchanged. -/
theorem c9_no_mutation (df : DataFrame) :
    (calculate_indicators df).bars = df.bars ∧
    (df.sma20 = none → df.rsi = none → 15 ≤ df.bars.length →
      (calculate_indicators df).columns = df.columns ++ ["SMA_20", "RSI"]) := by
  constructor
  · by_cases h : df.bars.length < 15 <;> simp [calculate_indicators, h]
  · intro hs hr h15
    have h : ¬ df.bars.length < 15 := by omega
    simp [calculate_indicators, h, DataFrame.columns, hs, hr]

/-- C9 witness: on the 15-bar flat frame the bars are preserved and the
column set grows by `SMA_20` and `RSI`. -/
theorem c9_no_mutation_witness :
    (calculate_indicators (flatDf 15 1)).bars = (flatDf 15 1).bars ∧
    (calculate_indicators (flatDf 15 1)).columns =
      (flatDf 15 1).columns ++ ["SMA_20", "RSI"] :=
  ⟨(c9_no_mutation (flatDf 15 1)).1,
   (c9_no_mutation (flatDf 15 1)).2 rfl rfl (by decide)⟩

theorem div_val_zero_cases (a : ℚ) :
    PFloat.div (PFloat.val a) (PFloat.val 0) = PFloat.nan ∨
    PFloat.div (PFloat.val a) (PFloat.val 0) = PFloat.inf ∨
    PFloat.div (PFloat.val a) (PFloat.val 0) = PFloat.ninf := by
  rcases lt_trichotomy a 0 with h | h | h
  · right; right; norm_num [PFloat.div, h.ne, not_lt.mpr h.le]
  · left; rw [h]; norm_num [PFloat.div]
  · right; left; norm_num [PFloat.div, h.ne', h]

theorem mul_val100_not_val {a : PFloat}
    (h : a = PFloat.nan ∨ a = PFloat.inf ∨ a = PFloat.ninf) (q : ℚ) :
    PFloat.mul a (PFloat.val 100) ≠ PFloat.val q := by
  rcases h with rfl | rfl | rfl
  · simp [PFloat.mul]
  · rw [show PFloat.mul PFloat.inf (PFloat.val 100) = PFloat.inf by
      norm_num [PFloat.mul]]
    simp
  · rw [show PFloat.mul PFloat.ninf (PFloat.val 100) = PFloat.ninf by
      norm_num [PFloat.mul]]
    simp

/-- C3 counterexample: the unknown label "2 Years" is outside the
enumeration, yet the resolution does not fail — `get_data` silently maps it
to the fetch parameters `("1d", "1d")` through the final ternary fallback;
no `InvalidTimeframe` error exists in the code. -/
theorem c3_counterexample :
    "2 Years" ∉ knownLabels ∧ resolveTimeframe "2 Years" = ("1d", "1d") := by decide

/-- C3 (amended): every lookback label outside the closed enumeration is
silently mapped to the lookback span `"1d"` with resolution `"1d"`; no error
path exists for unknown labels. -/
theorem c3_unknown_label (p : String) (h : p ∉ knownLabels) :
    resolveTimeframe p = ("1d", "1d") := by
  simp only [knownLabels, List.mem_cons, List.not_mem_nil, or_false, not_or] at h
  obtain ⟨h1, h2, h3, h4, h5, h6⟩ := h
  rw [resolveTimeframe, yf_period, interval, if_neg h2, if_neg h3, if_neg h4,
    if_neg h5, if_neg h6, if_neg h1]

/-- C3 witness: the unknown label "2 Years" resolves to `("1d", "1d")`. -/
theorem c3_unknown_label_witness : resolveTimeframe "2 Years" = ("1d", "1d") :=
  c3_unknown_label "2 Years" (by decide)

/-- C4 counterexample: for the single bar with `Open = 0` (and `Close = 5`),
`previousClose` is 0, yet the metrics computation does not fail with a
`DivisionUndefined` error — numpy float division yields `+inf` and the
session change percent is the defined special value `+inf`. -/
theorem c4_counterexample :
    prev_close zeroOpenDf = 0 ∧ daily_pct zeroOpenDf = PFloat.inf := by
  have hp : prev_close zeroOpenDf = 0 := rfl
  have hd : daily_change zeroOpenDf = 5 := by
    rw [daily_change, hp]
    show (5 : ℚ) - 0 = 5
    norm_num
  refine ⟨hp, ?_⟩
  rw [daily_pct, hd, hp]
  norm_num [PFloat.div, PFloat.mul]

/-- C4 (amended): for every non-empty Series, `previousClose` is the close
of the second-to-last bar when at least two bars exist and the open of the
only bar otherwise; for `previousClose ≠ 0` the session change percent is
defined and equals `(latestPrice - previousClose) / previousClose * 100`;
for `previousClose = 0` the computation does not fail but produces a
non-finite float (infinity or NaN), never a finite value. -/
theorem c4_metrics (df : DataFrame) (h : df.bars ≠ []) :
    prev_close df = (if 1 < df.bars.length
      then (closes df.bars).getD (df.bars.length - 2) 0
      else (df.bars.getD 0 defaultBar).Open) ∧
    (prev_close df ≠ 0 →
      daily_pct df =
        PFloat.val ((latest_price df - prev_close df) / prev_close df * 100)) ∧
    (prev_close df = 0 → ∀ q : ℚ, daily_pct df ≠ PFloat.val q) := by
  refine ⟨rfl, fun hne => ?_, fun hz q => ?_⟩
  · rw [daily_pct, daily_change]
    norm_num [PFloat.div, PFloat.mul, hne]
  · rw [daily_pct, hz]
    exact mul_val100_not_val (div_val_zero_cases (daily_change df)) q

/-- C4 witness: on a two-bar Series closing at 2 then 3, `previousClose`
is the second-to-last close 2 and the session change percent is 50. -/
theorem c4_metrics_witness :
    prev_close ⟨[constBar 2, constBar 3], none, none⟩ = 2 ∧
    daily_pct ⟨[constBar 2, constBar 3], none, none⟩ = PFloat.val 50 := by
  have h := c4_metrics ⟨[constBar 2, constBar 3], none, none⟩ (by decide)
  have hp : prev_close ⟨[constBar 2, constBar 3], none, none⟩ = 2 := rfl
  have hl : latest_price ⟨[constBar 2, constBar 3], none, none⟩ = 3 := rfl
  refine ⟨hp, ?_⟩
  rw [h.2.1 (by rw [hp]; norm_num), hp, hl]
  norm_num

theorem sub_val (a b : ℚ) :
    PFloat.sub (PFloat.val a) (PFloat.val b) = PFloat.val (a - b) := by
  show PFloat.val (a + -b) = PFloat.val (a - b)
  rw [sub_eq_add_neg]

theorem div_val (a b : ℚ) (hb : b ≠ 0) :
    PFloat.div (PFloat.val a) (PFloat.val b) = PFloat.val (a / b) := by
  norm_num [PFloat.div, hb]

theorem mul_val (a b : ℚ) :
    PFloat.mul (PFloat.val a) (PFloat.val b) = PFloat.val (a * b) := rfl

/-- C7: whenever the oscillator column is present and finite at the last
position, the oscillator statement classifies a value strictly above 70 as
Overbought, strictly below 30 as Oversold, and everything in `[30, 70]` —
the boundaries 70 and 30 included — as Neutral. -/
theorem c7_oscillator_classify (df : DataFrame) (col : List PFloat) (q : ℚ)
    (h2 : 2 ≤ df.bars.length) (hcol : df.rsi = some col)
    (hq : col.getD (col.length - 1) PFloat.nan = PFloat.val q) :
    ∃ interp, generate_interpretation df = some interp ∧
      ((70 < q → interp.rsiStmt = some (PFloat.val q, Polarity.overbought)) ∧
       (q < 30 → interp.rsiStmt = some (PFloat.val q, Polarity.oversold)) ∧
       (30 ≤ q → q ≤ 70 → interp.rsiStmt = some (PFloat.val q, Polarity.neutral))) := by
  have hlt : ¬ df.bars.length < 2 := by omega
  simp only [generate_interpretation, if_neg hlt, hcol, hq]
  refine ⟨_, rfl, fun h70 => ?_, fun h30 => ?_, fun h30le h70le => ?_⟩
  · show (if (PFloat.val q).isNaN then none else _) = _
    simp only [PFloat.isNaN, Bool.false_eq_true, if_false, PFloat.gt, PFloat.lt,
      decide_eq_true_eq, if_pos h70]
  · show (if (PFloat.val q).isNaN then none else _) = _
    simp only [PFloat.isNaN, Bool.false_eq_true, if_false, PFloat.gt, PFloat.lt,
      decide_eq_true_eq, if_neg (not_lt.mpr (by linarith : q ≤ 70)), if_pos h30]
  · show (if (PFloat.val q).isNaN then none else _) = _
    simp only [PFloat.isNaN, Bool.false_eq_true, if_false, PFloat.gt, PFloat.lt,
      decide_eq_true_eq, if_neg (not_lt.mpr h70le), if_neg (not_lt.mpr h30le)]

/-- C7 witness: a frame whose oscillator column ends at exactly 70 gets the
Neutral classification, not Overbought. -/
theorem c7_oscillator_classify_witness :
    ∃ interp,
      generate_interpretation
        ⟨[constBar 1, constBar 1], none, some [PFloat.val 70, PFloat.val 70]⟩
        = some interp ∧
      interp.rsiStmt = some (PFloat.val 70, Polarity.neutral) := by
  obtain ⟨interp, hi, -, -, hn⟩ :=
    c7_oscillator_classify
      ⟨[constBar 1, constBar 1], none, some [PFloat.val 70, PFloat.val 70]⟩
      [PFloat.val 70, PFloat.val 70] 70 (by decide) rfl rfl
  exact ⟨interp, hi, hn (by norm_num) (by norm_num)⟩

/-- C8: for every Series of at least 2 bars (with non-zero first close so
the percentage is finite), the trend statement reports the move from the
first close to the last close with its percentage, and classifies Bullish
exactly when that full-period percentage change is strictly positive and
Bearish otherwise — a change of exactly 0 is Bearish. -/
theorem c8_trend (df : DataFrame) (h2 : 2 ≤ df.bars.length)
    (hs : (closes df.bars).getD 0 0 ≠ 0) :
    ∃ interp, generate_interpretation df = some interp ∧
      interp.trend.start_price = (closes df.bars).getD 0 0 ∧
      interp.trend.end_price = (closes df.bars).getD (df.bars.length - 1) 0 ∧
      interp.trend.change_pct = PFloat.val
        ((interp.trend.end_price - interp.trend.start_price)
          / interp.trend.start_price * 100) ∧
      (interp.trend.polarity = Polarity.bullish ↔
        0 < (interp.trend.end_price - interp.trend.start_price)
          / interp.trend.start_price * 100) ∧
      (interp.trend.polarity = Polarity.bearish ↔
        (interp.trend.end_price - interp.trend.start_price)
          / interp.trend.start_price * 100 ≤ 0) := by
  have hlt : ¬ df.bars.length < 2 := by omega
  have hpct : PFloat.mul (PFloat.div (PFloat.sub
        (PFloat.val ((closes df.bars).getD (df.bars.length - 1) 0))
        (PFloat.val ((closes df.bars).getD 0 0)))
        (PFloat.val ((closes df.bars).getD 0 0))) (PFloat.val 100)
      = PFloat.val (((closes df.bars).getD (df.bars.length - 1) 0
          - (closes df.bars).getD 0 0) / (closes df.bars).getD 0 0 * 100) := by
    rw [sub_val, div_val _ _ hs, mul_val]
  simp only [generate_interpretation, if_neg hlt, hpct]
  by_cases hpos : 0 < ((closes df.bars).getD (df.bars.length - 1) 0
      - (closes df.bars).getD 0 0) / (closes df.bars).getD 0 0 * 100
  · refine ⟨_, rfl, rfl, rfl, rfl, ?_, ?_⟩
    · show (if PFloat.gt _ (PFloat.val 0) then Polarity.bullish else Polarity.bearish)
        = Polarity.bullish ↔ _
      simp only [PFloat.gt, PFloat.lt, decide_eq_true_eq, if_pos hpos]
      exact iff_of_true trivial hpos
    · show (if PFloat.gt _ (PFloat.val 0) then Polarity.bullish else Polarity.bearish)
        = Polarity.bearish ↔ _
      simp only [PFloat.gt, PFloat.lt, decide_eq_true_eq, if_pos hpos]
      exact iff_of_false (fun hc => Polarity.noConfusion hc) (not_le.mpr hpos)
  · refine ⟨_, rfl, rfl, rfl, rfl, ?_, ?_⟩
    · show (if PFloat.gt _ (PFloat.val 0) then Polarity.bullish else Polarity.bearish)
        = Polarity.bullish ↔ _
      simp only [PFloat.gt, PFloat.lt, decide_eq_true_eq, if_neg hpos]
      exact iff_of_false (fun hc => Polarity.noConfusion hc) hpos
    · show (if PFloat.gt _ (PFloat.val 0) then Polarity.bullish else Polarity.bearish)
        = Polarity.bearish ↔ _
      simp only [PFloat.gt, PFloat.lt, decide_eq_true_eq, if_neg hpos]
      exact iff_of_true trivial (not_lt.mp hpos)

/-- C8 witness: a flat two-bar Series has a full-period change of exactly 0
and is classified Bearish. -/
theorem c8_trend_witness :
    ∃ interp, generate_interpretation (flatDf 2 1) = some interp ∧
      interp.trend.polarity = Polarity.bearish := by
  obtain ⟨interp, hi, hsp, hep, -, -, hbear⟩ :=
    c8_trend (flatDf 2 1) (by decide) (by decide)
  refine ⟨interp, hi, hbear.mpr ?_⟩
  rw [hsp, hep,
    show ((closes (flatDf 2 1).bars).getD 0 0 : ℚ) = 1 from by decide,
    show ((closes (flatDf 2 1).bars).getD ((flatDf 2 1).bars.length - 1) 0 : ℚ) = 1
      from by decide]
  norm_num

theorem rsiColumn_length (bars : List Bar) : (rsiColumn bars).length = bars.length := by
  rw [rsiColumn, List.length_map, List.length_range]

theorem smaColumn_length (bars : List Bar) : (smaColumn bars).length = bars.length := by
  rw [smaColumn, List.length_map, List.length_range]

theorem avgGain_nonneg (xs : List ℚ) (i : ℕ) : 0 ≤ avgGain xs i := by
  rw [avgGain]
  apply div_nonneg _ (by norm_num)
  apply List.sum_nonneg
  intro x hx
  rw [List.mem_map] at hx
  obtain ⟨j, _, rfl⟩ := hx
  by_cases hj : j = 0 <;> simp [gainAt, hj]

theorem avgLoss_nonneg (xs : List ℚ) (i : ℕ) : 0 ≤ avgLoss xs i := by
  rw [avgLoss]
  apply div_nonneg _ (by norm_num)
  apply List.sum_nonneg
  intro x hx
  rw [List.mem_map] at hx
  obtain ⟨j, _, rfl⟩ := hx
  by_cases hj : j = 0 <;> simp [lossAt, hj]

theorem isNaN_rsi_formula (r : PFloat) (h : r.isNaN = false) :
    (PFloat.sub (PFloat.val 100)
      (PFloat.div (PFloat.val 100) (PFloat.add (PFloat.val 1) r))).isNaN = false := by
  cases r with
  | nan => simp [PFloat.isNaN] at h
  | inf => rfl
  | ninf => rfl
  | val x =>
    rw [show PFloat.add (PFloat.val 1) (PFloat.val x) = PFloat.val (1 + x) from rfl]
    by_cases h1 : (1 + x) = 0
    · rw [h1, show PFloat.div (PFloat.val 100) (PFloat.val 0) = PFloat.inf by
        norm_num [PFloat.div]]
      rfl
    · rw [div_val _ _ h1]
      rfl

theorem rsAt_not_nan (xs : List ℚ) (i : ℕ) (h13 : 13 ≤ i)
    (h : ¬(avgGain xs i = 0 ∧ avgLoss xs i = 0)) : (rsAt xs i).isNaN = false := by
  rw [rsAt, avgGainF, avgLossF, if_neg (by omega), if_neg (by omega)]
  by_cases hl : avgLoss xs i = 0
  · have hg : avgGain xs i ≠ 0 := fun hg => h ⟨hg, hl⟩
    have hg0 : 0 < avgGain xs i := lt_of_le_of_ne (avgGain_nonneg xs i) (Ne.symm hg)
    rw [hl, show PFloat.div (PFloat.val (avgGain xs i)) (PFloat.val 0) = PFloat.inf by
      norm_num [PFloat.div, hg, hg0]]
    rfl
  · rw [div_val _ _ hl]
    rfl

theorem rsiAt_not_nan (xs : List ℚ) (i : ℕ) (h13 : 13 ≤ i)
    (h : ¬(avgGain xs i = 0 ∧ avgLoss xs i = 0)) : (rsiAt xs i).isNaN = false :=
  isNaN_rsi_formula _ (rsAt_not_nan xs i h13 h)

theorem interp_rsiStmt (df : DataFrame) (col : List PFloat)
    (h2 : ¬ df.bars.length < 2) (hcol : df.rsi = some col) :
    (generate_interpretation df).map Interpretation.rsiStmt = some
      (if (col.getD (col.length - 1) PFloat.nan).isNaN then none
       else some (col.getD (col.length - 1) PFloat.nan,
         if PFloat.gt (col.getD (col.length - 1) PFloat.nan) (PFloat.val 70) then
           Polarity.overbought
         else if PFloat.lt (col.getD (col.length - 1) PFloat.nan) (PFloat.val 30) then
           Polarity.oversold
         else Polarity.neutral)) := by
  simp only [generate_interpretation, if_neg h2, hcol, Option.map_some']

theorem interp_smaStmt (df : DataFrame) (col : List PFloat)
    (h2 : ¬ df.bars.length < 2) (hcol : df.sma20 = some col) :
    (generate_interpretation df).map Interpretation.smaStmt = some
      (if (col.getD (col.length - 1) PFloat.nan).isNaN then none
       else some (col.getD (col.length - 1) PFloat.nan,
         if PFloat.gt (PFloat.val ((closes df.bars).getD (df.bars.length - 1) 0))
             (col.getD (col.length - 1) PFloat.nan)
           then Polarity.above else Polarity.below)) := by
  simp only [generate_interpretation, if_neg h2, hcol, Option.map_some']

/-- C10 counterexample: a flat Series of 16 bars lies in the 15–19 bar band,
yet the oscillator is NOT defined at the last position — the flat 14-window
gives `0/0 = NaN` — and the oscillator statement is omitted from the
interpretation rather than included. -/
theorem c10_counterexample :
    15 ≤ (flatDf 16 1).bars.length ∧ (flatDf 16 1).bars.length < 20 ∧
    rsiAtDf (calculate_indicators (flatDf 16 1)) 15 = PFloat.nan ∧
    (generate_interpretation (calculate_indicators (flatDf 16 1))).map
      Interpretation.rsiStmt = some none := by
  have hb : (flatDf 16 1).bars.length = 16 := flatDf_bars_length 16 1
  have hlen : (closes (flatDf 16 1).bars).length = 16 := by rw [closes_length, hb]
  have hc : ∀ x ∈ closes (flatDf 16 1).bars, x = 1 := by decide
  have hg := avgGain_of_const _ 1 hc 15 (by omega) (by omega)
  have hl := avgLoss_of_const _ 1 hc 15 (by omega) (by omega)
  have hnan : rsiAt (closes (flatDf 16 1).bars) 15 = PFloat.nan :=
    rsiAt_of_flat _ 15 (by omega) hg hl
  have hcalc := calculate_indicators_of_ge (flatDf 16 1) (by omega)
  refine ⟨by omega, by omega, ?_, ?_⟩
  · rw [rsiAtDf_calc _ (by omega) 15 (by omega)]
    exact hnan
  · have hcol : (calculate_indicators (flatDf 16 1)).rsi
        = some (rsiColumn (flatDf 16 1).bars) := by rw [hcalc]
    have hbars : (calculate_indicators (flatDf 16 1)).bars = (flatDf 16 1).bars := by
      rw [hcalc]
    rw [interp_rsiStmt _ _ (by rw [hbars]; omega) hcol, rsiColumn_length, hb,
      show (rsiColumn (flatDf 16 1).bars).getD (16 - 1) PFloat.nan
          = rsiAt (closes (flatDf 16 1).bars) 15 from by
        rw [rsiColumn]
        exact getD_map_range _ _ 15 (by omega) _,
      hnan]
    rfl

/-- C10 (amended): for every Series with at least 15 but fewer than 20 bars,
the 15-bar threshold enables only the oscillator: the moving average is
undefined at every position and the moving-average statement is omitted,
while the oscillator is defined at the last position and its statement is
included — provided the last 14-window is not flat (both trailing averages
zero), in which case the oscillator too is NaN and omitted. -/
theorem c10_mid_threshold (df : DataFrame) (h15 : 15 ≤ df.bars.length)
    (h20 : df.bars.length < 20)
    (hnf : ¬(avgGain (closes df.bars) (df.bars.length - 1) = 0 ∧
             avgLoss (closes df.bars) (df.bars.length - 1) = 0)) :
    (∀ i, smaAtDf (calculate_indicators df) i = PFloat.nan) ∧
    (rsiAtDf (calculate_indicators df) (df.bars.length - 1)).isNaN = false ∧
    (generate_interpretation (calculate_indicators df)).map Interpretation.smaStmt
      = some none ∧
    (∃ st, (generate_interpretation (calculate_indicators df)).map
      Interpretation.rsiStmt = some (some st)) := by
  have h : ¬ df.bars.length < 15 := by omega
  have hcalc := calculate_indicators_of_ge df h
  have hbars : (calculate_indicators df).bars = df.bars := by rw [hcalc]
  have hsma : (calculate_indicators df).sma20 = some (smaColumn df.bars) := by
    rw [hcalc]
  have hrsi : (calculate_indicators df).rsi = some (rsiColumn df.bars) := by
    rw [hcalc]
  have hsmaNan : ∀ i, smaAtDf (calculate_indicators df) i = PFloat.nan := by
    intro i
    by_cases hi : i < df.bars.length
    · rw [smaAtDf_calc df h i hi, smaAt, if_pos (by omega)]
    · simp only [smaAtDf, hsma]
      exact List.getD_eq_default _ _ (by rw [smaColumn_length]; omega)
  have hrsiVal : (rsiColumn df.bars).getD ((rsiColumn df.bars).length - 1) PFloat.nan
      = rsiAt (closes df.bars) (df.bars.length - 1) := by
    rw [rsiColumn_length, rsiColumn]
    exact getD_map_range _ _ _ (by omega) _
  have hnotnan := rsiAt_not_nan (closes df.bars) (df.bars.length - 1) (by omega) hnf
  refine ⟨hsmaNan, ?_, ?_, ?_⟩
  · rw [rsiAtDf_calc df h _ (by omega)]
    exact hnotnan
  · rw [interp_smaStmt _ _ (by rw [hbars]; omega) hsma,
      show (smaColumn df.bars).getD ((smaColumn df.bars).length - 1) PFloat.nan
          = PFloat.nan from by
        rw [smaColumn_length, smaColumn,
          getD_map_range _ _ _ (by omega : df.bars.length - 1 < df.bars.length) _,
          smaAt, if_pos (by omega)]]
    rfl
  · rw [interp_rsiStmt _ _ (by rw [hbars]; omega) hrsi, hrsiVal,
      if_neg (by rw [hnotnan]; exact Bool.false_ne_true)]
    exact ⟨_, rfl⟩

/-- C10 witness: the strictly increasing 16-bar Series has an all-NaN moving
average (statement omitted) while the oscillator is defined at the last
position and its statement is included. -/
theorem c10_mid_threshold_witness :
    smaAtDf (calculate_indicators (incDf 16)) 15 = PFloat.nan ∧
    (rsiAtDf (calculate_indicators (incDf 16)) ((incDf 16).bars.length - 1)).isNaN
      = false ∧
    (generate_interpretation (calculate_indicators (incDf 16))).map
      Interpretation.smaStmt = some none ∧
    (∃ st, (generate_interpretation (calculate_indicators (incDf 16))).map
      Interpretation.rsiStmt = some (some st)) := by
  have hb := incDf_bars_length 16
  have hlen := closes_incDf_length 16
  have hnf : ¬(avgGain (closes (incDf 16).bars) ((incDf 16).bars.length - 1) = 0 ∧
      avgLoss (closes (incDf 16).bars) ((incDf 16).bars.length - 1) = 0) := by
    rintro ⟨hg, -⟩
    have hpos := avgGain_of_inc _ (strictlyInc_incDf 16) ((incDf 16).bars.length - 1)
      (by omega) (by omega)
    exact hpos.ne' hg
  have h := c10_mid_threshold (incDf 16) (by omega) (by omega) hnf
  exact ⟨h.1 15, h.2.1, h.2.2.1, h.2.2.2⟩
